import Mathlib

/-!
Shallow embedding of `custom_components/localtuya/vacuum.py` (class
`LocaltuyaVacuum`): the status-decoding state machine, the geometry
transform, and the command dispatcher, together with theorems settling the
specification claims about them.

Conventions of the embedding:
* Python floats are modelled as rationals (`ℚ`); `round` is modelled by
  `pyRound`, Python 3's round-half-to-even.
* Datapoint values are `DPValue` (bool / int / string); a missing value is
  `none` (Python `None`).
* The device status snapshot is an association list from datapoint id to
  value; key membership models the `in status` test.
* JSON values decoded from the position blob are `JVal`.  The standard
  library composite `json.loads(base64.b64decode(s))` is external library
  code, so `status_updated` takes it as an explicit function parameter
  `decode : String → Except PyErr JVal`; concrete theorems instantiate it
  at inputs whose decoding is known.
* Exceptions are explicit: `Except PyErr` for expressions, and
  `status_updated` returns the mutated entity together with an optional
  uncaught exception (in-place mutations made before a raise persist, as
  they do in Python).
-/

/-- Kinds of Python exceptions that the vacuum code can raise or catch. -/
inductive PyErr where
  | jsonDecodeError
  | typeError
  | indexError
  | binasciiError
  | attributeError
  | keyError
  | valueError
  | zeroDivisionError
deriving DecidableEq, Repr

/-- The exception classes listed in the `except` clause at line 372 of
`vacuum.py`: `(json.JSONDecodeError, TypeError, IndexError, binascii.Error)`.
`AttributeError`, `KeyError`, `ValueError` and `ZeroDivisionError` are not
in the tuple and propagate to the caller. -/
def PyErr.caught : PyErr → Bool
  | .jsonDecodeError => true
  | .typeError => true
  | .indexError => true
  | .binasciiError => true
  | _ => false

/-- A raw datapoint value (boolean, integer or string). -/
inductive DPValue where
  | b (v : Bool)
  | i (n : ℤ)
  | s (v : String)
deriving DecidableEq, Repr

/-- Datapoint identifier. -/
abbrev DPId := Nat

/-- A status snapshot: the dict passed to `status_updated`, mapping
datapoint ids to current values.  Modelled from the spec: the inbound
status snapshot is "a mapping from datapoint identifier to current value",
re-read in full by the decoder on each update. -/
abbrev Snapshot := List (DPId × DPValue)

/-- Modelled from the spec: `self.dps(dp)` of the host entity framework
(`common.py`, not part of the analysed sources) returns the current cached
value of a datapoint, or `None` when the datapoint has no value. -/
def dps (status : Snapshot) (dp : DPId) : Option DPValue :=
  (status.find? (fun kv => kv.1 == dp)).map (fun kv => kv.2)

/-- Key-membership test `str(dp) in status` on the snapshot dict. -/
def snapHasKey (status : Snapshot) (dp : DPId) : Bool :=
  status.any (fun kv => kv.1 == dp)

/-- Modelled from the spec: `self.dps_conf(item)` reads the current value of
the datapoint bound to a configuration option; with no binding configured
there is no datapoint to read and the result is the absent value. -/
def dps_conf (conf : Option DPId) (status : Snapshot) : Option DPValue :=
  match conf with
  | some dp => dps status dp
  | none => none

/-- Modelled from the spec: `self.has_config(item)` of the host entity
framework tells whether a configuration option carries a value. -/
def has_config (o : Option α) : Bool := o.isSome

/-- Python `str()` of a datapoint value (`str(self.dps(self._dp_id))` at
line 312; `str(None) = "None"`). -/
def pyStr : Option DPValue → String
  | none => "None"
  | some (.b true) => "True"
  | some (.b false) => "False"
  | some (.i n) => toString n
  | some (.s v) => v

/-- Python `value != 0` is false exactly on the int `0` and the bool
`False` (`False == 0` in Python); `None != 0` and `"..." != 0` are true.
`pyIsZero v = true` means `v != 0` is Python-false. -/
def pyIsZero : Option DPValue → Bool
  | some (.i n) => n == 0
  | some (.b v) => v == false
  | some (.s _) => false
  | none => false

/-- The six vacuum lifecycle states (`STATE_IDLE`, `STATE_DOCKED`,
`STATE_RETURNING`, `STATE_PAUSED`, `STATE_CLEANING`, `STATE_ERROR`). -/
inductive VacState where
  | idle
  | docked
  | returning
  | paused
  | cleaning
  | error
deriving DecidableEq, Repr

/-- A JSON value, as produced by `json.loads`. -/
inductive JVal where
  | null
  | jbool (v : Bool)
  | jnum (q : ℚ)
  | jstr (v : String)
  | jarr (l : List JVal)
  | jobj (l : List (String × JVal))

mutual

/-- Structural equality on JSON values (Python `==` on decoded JSON; the
values compared by the vacuum code are coordinate pairs, where structural
equality coincides with Python equality). -/
def JVal.eqb : JVal → JVal → Bool
  | .null, .null => true
  | .jbool a, .jbool c => a == c
  | .jnum a, .jnum c => a == c
  | .jstr a, .jstr c => a == c
  | .jarr a, .jarr c => JVal.eqbList a c
  | .jobj a, .jobj c => JVal.eqbObj a c
  | _, _ => false

/-- Elementwise equality of JSON arrays. -/
def JVal.eqbList : List JVal → List JVal → Bool
  | [], [] => true
  | x :: xs, y :: ys => JVal.eqb x y && JVal.eqbList xs ys
  | _, _ => false

/-- Entrywise equality of JSON objects. -/
def JVal.eqbObj : List (String × JVal) → List (String × JVal) → Bool
  | [], [] => true
  | (k1, v1) :: r1, (k2, v2) :: r2 => k1 == k2 && JVal.eqb v1 v2 && JVal.eqbObj r1 r2
  | _, _ => false

end

/-- Test for the JSON null (Python `None`). -/
def JVal.isNull : JVal → Bool
  | .null => true
  | _ => false

/-- Reading a possibly-absent attribute slot with `dict.get(key, None)`:
an absent slot reads as Python `None`, i.e. JSON null. -/
def jOfOpt : Option JVal → JVal
  | none => .null
  | some j => j

/-- Python `obj.get(key, dflt)`: only dicts have a `get` method; on any
non-dict value the attribute lookup raises `AttributeError`. -/
def pyGet (j : JVal) (key : String) (dflt : JVal) : Except PyErr JVal :=
  match j with
  | .jobj l => .ok (((l.find? (fun kv => kv.1 == key)).map (fun kv => kv.2)).getD dflt)
  | _ => .error .attributeError

/-- Python `len()` on a decoded JSON value: defined for lists, strings and
dicts; raises `TypeError` otherwise (including on `None`). -/
def pyLen : JVal → Except PyErr Nat
  | .jarr l => .ok l.length
  | .jstr v => .ok v.length
  | .jobj l => .ok l.length
  | _ => .error .typeError

/-- Python `value[0]`: element of a list, first character of a string,
`KeyError` on a dict (JSON object keys are strings, never the int `0`),
`IndexError` on empty sequences, `TypeError` on non-subscriptables. -/
def pyIndex0 : JVal → Except PyErr JVal
  | .jarr (x :: _) => .ok x
  | .jarr [] => .error .indexError
  | .jstr v =>
    match v.data with
    | c :: _ => .ok (.jstr (String.mk [c]))
    | [] => .error .indexError
  | .jobj _ => .error .keyError
  | _ => .error .typeError

/-- Python tuple unpacking `px, py = position` followed by the arithmetic
of `get_relative_position`: succeeds on a two-element array of numbers
(JSON booleans behave as the numbers 1 and 0 in Python arithmetic);
unpacking a value of length other than two raises `ValueError`; every
other case ends in `TypeError`, either at the unpacking itself or at the
subsequent multiplication by the (numeric) scale. -/
def jUnpack2 : JVal → Except PyErr (ℚ × ℚ)
  | .jarr [.jnum a, .jnum c] => .ok (a, c)
  | .jarr [.jnum a, .jbool c] => .ok (a, if c then 1 else 0)
  | .jarr [.jbool a, .jnum c] => .ok (if a then 1 else 0, c)
  | .jarr [.jbool a, .jbool c] => .ok (if a then 1 else 0, if c then 1 else 0)
  | .jarr [_, _] => .error .typeError
  | .jarr _ => .error .valueError
  | .jstr v => if v.length == 2 then .error .typeError else .error .valueError
  | .jobj l => if l.length == 2 then .error .typeError else .error .valueError
  | _ => .error .typeError

/-- Python 3 `round()` on a rational: round half to even (`Rat.floor` is
the executable floor). -/
def pyRound (q : ℚ) : ℤ :=
  let f : ℤ := q.floor
  let r : ℚ := q - f
  if r < 1/2 then f
  else if 1/2 < r then f + 1
  else if f % 2 = 0 then f else f + 1

/-- The base64-then-JSON decode `json.loads(base64.b64decode(position))`
applied to a raw datapoint value: `b64decode(None)` and `b64decode(int)`
raise `TypeError`; on a string the external codec `decode` decides the
outcome (`binascii.Error`, `json.JSONDecodeError`, or a JSON value). -/
def b64loads (decode : String → Except PyErr JVal) : Option DPValue → Except PyErr JVal
  | some (.s v) => decode v
  | _ => .error .typeError

/-- Accumulating splitter behind `pySplitComma`, walking the character
list. -/
def splitCommaAux : List Char → List Char → List String
  | [], acc => [String.mk acc.reverse]
  | c :: rest, acc =>
    if c = ',' then String.mk acc.reverse :: splitCommaAux rest []
    else splitCommaAux rest (c :: acc)

/-- Python `str.split(",")`: split on every comma; the empty string splits
to a one-element list holding the empty string. -/
def pySplitComma (s : String) : List String :=
  splitCommaAux s.data []

/-- The device configuration consumed by `LocaltuyaVacuum.__init__`,
one optional field per `CONF_*` option of `flow_schema`; the field
defaults mirror the schema defaults, and the two options read by plain
dict indexing in `status_updated` (returning status, paused state) are
plain values as the schema always supplies them. -/
structure VacuumConfig where
  idle_status_value : Option String := some "standby,sleep"
  docked_status_value : Option String := some "charging,chargecompleted"
  returning_status_value : String := "docking"
  paused_state : String := "paused"
  battery_dp : Option DPId := none
  mode_dp : Option DPId := none
  modes : Option String := some "smart,wall_follow,spiral,single"
  fan_speed_dp : Option DPId := none
  fan_speeds : Option String := some "low,normal,high"
  clean_time_dp : Option DPId := none
  clean_area_dp : Option DPId := none
  clean_record_dp : Option DPId := none
  fault_dp : Option DPId := none
  position_base64_dp : Option DPId := none
  position_relative_scale : Option ℚ := none
  position_relative_origin : Option (ℚ × ℚ) := none
  position_axis_rotation : Option ℤ := none

/-- The dynamic attribute bag `self._attrs`: an outer `some` means the key
is present in the dict; for the passthrough attributes the inner value is
the raw datapoint value (possibly Python `None`). -/
structure VacuumAttrs where
  cleaning_mode_list : Option (List String) := none
  path : Option (List (ℚ × ℚ)) := none
  cleaning_mode : Option (Option DPValue) := none
  clean_time : Option (Option DPValue) := none
  clean_area : Option (Option DPValue) := none
  clean_record : Option (Option DPValue) := none
  fault : Option (Option DPValue) := none
  position : Option JVal := none
  relative_position : Option (ℚ × ℚ) := none

/-- The mutable state of a `LocaltuyaVacuum` entity (the fields assigned
in `__init__`), plus the immutable `self._config` and the primary
datapoint id `self._dp_id` supplied by the host framework. -/
structure Entity where
  config : VacuumConfig
  dp_id : DPId
  state : Option VacState := none
  battery_level : Option DPValue := none
  attrs : VacuumAttrs := {}
  idle_status_list : List String := []
  modes_list : List String := []
  docked_status_list : List String := []
  fan_speed_list : List String := []
  position_relative_scale : ℚ := 1
  position_relative_origin : ℚ × ℚ := (0, 0)
  position_axis_rotation : ℤ := 0
  fan_speed : Option DPValue := some (.s "")
  cleaning_mode : Option DPValue := some (.s "")

/-- `LocaltuyaVacuum.__init__` (lines 101-141): splits the configured
status/mode/fan lists on commas, stores the empty path, and stores the
geometry options with defaults scale 1, origin (0, 0), rotation 0.  The
origin option is held pre-parsed (the source applies `json.loads` to the
configured string). -/
def vacuum_init (cfg : VacuumConfig) (dp_id : DPId) : Entity :=
  { config := cfg
    dp_id := dp_id
    state := none
    battery_level := none
    idle_status_list :=
      match cfg.idle_status_value with
      | some v => pySplitComma v
      | none => []
    modes_list :=
      match cfg.modes with
      | some v => pySplitComma v
      | none => []
    docked_status_list :=
      match cfg.docked_status_value with
      | some v => pySplitComma v
      | none => []
    fan_speed_list :=
      match cfg.fan_speeds with
      | some v => pySplitComma v
      | none => []
    attrs :=
      { cleaning_mode_list := cfg.modes.map (fun v => pySplitComma v)
        path := some [] }
    position_relative_scale := cfg.position_relative_scale.getD 1
    position_relative_origin := cfg.position_relative_origin.getD (0, 0)
    position_axis_rotation := cfg.position_axis_rotation.getD 0
    fan_speed := some (.s "")
    cleaning_mode := some (.s "") }

/-- `LocaltuyaVacuum.rotate_coordinates` (lines 279-288): one of four
fixed axis rotations selected by the configured mode; any other mode
leaves the pair unchanged. -/
def rotate_coordinates (e : Entity) (px py : ℚ) : ℚ × ℚ :=
  if e.position_axis_rotation = 0 then (px, -py)
  else if e.position_axis_rotation = 1 then (py, px)
  else if e.position_axis_rotation = 2 then (-px, py)
  else if e.position_axis_rotation = 3 then (-px, -py)
  else (px, py)

/-- Body of `LocaltuyaVacuum.get_relative_position` (lines 290-300) reading
the given position slot: `None` yields `None`; otherwise unpack the raw
pair, rotate, multiply by the scale and add the origin. -/
def get_relative_position_on (e : Entity) (posv : Option JVal) :
    Except PyErr (Option (ℚ × ℚ)) :=
  match jOfOpt posv with
  | .null => .ok none
  | p =>
    match jUnpack2 p with
    | .error er => .error er
    | .ok pq =>
      let pr := rotate_coordinates e pq.1 pq.2
      .ok (some (pr.1 * e.position_relative_scale + e.position_relative_origin.1,
                 pr.2 * e.position_relative_scale + e.position_relative_origin.2))

/-- `LocaltuyaVacuum.get_relative_position` (lines 290-300). -/
def get_relative_position (e : Entity) : Except PyErr (Option (ℚ × ℚ)) :=
  get_relative_position_on e e.attrs.position

/-- `LocaltuyaVacuum.calculate_absolute_position` (lines 302-308): subtract
the origin, divide by the scale (`ZeroDivisionError` when the scale is
zero), rotate, and round each coordinate to the nearest integer. -/
def calculate_absolute_position (e : Entity) (x y : ℚ) : Except PyErr (ℤ × ℤ) :=
  if e.position_relative_scale = 0 then .error .zeroDivisionError
  else
    let px := (x - e.position_relative_origin.1) / e.position_relative_scale
    let py := (y - e.position_relative_origin.2) / e.position_relative_scale
    let pr := rotate_coordinates e px py
    .ok (pyRound pr.1, pyRound pr.2)

/-- The state-resolution chain of `status_updated` (lines 315-324): first
match against the idle list, then the docked list, then the configured
returning value, then the configured paused value, else cleaning. -/
def resolveState (e : Entity) (state_value : String) : VacState :=
  if state_value ∈ e.idle_status_list then .idle
  else if state_value ∈ e.docked_status_list then .docked
  else if state_value = e.config.returning_status_value then .returning
  else if state_value = e.config.paused_state then .paused
  else .cleaning

/-- Body of the `try` block of the position decode (lines 359-371),
returning the new values of the `position` and `relative_position`
attribute slots together with the exception raised inside the block, if
any.  Mutations made before a raise are kept, as in Python; the only
mutation that can precede a raise is the `position` update (the raise then
coming from `get_relative_position`). -/
def positionTryCore (decode : String → Except PyErr JVal) (e : Entity)
    (pos : Option DPValue) : (Option JVal × Option (ℚ × ℚ)) × Option PyErr :=
  let keep := (e.attrs.position, e.attrs.relative_position)
  match b64loads decode pos with
  | .error er => (keep, some er)
  | .ok decoded_json =>
    match pyGet decoded_json "data" (.jobj []) with
    | .error er => (keep, some er)
    | .ok datav =>
      match pyGet datav "posArray" (.jarr []) with
      | .error er => (keep, some er)
      | .ok position_array =>
        if position_array.isNull then (keep, none)
        else
          match pyLen position_array with
          | .error er => (keep, some er)
          | .ok n =>
            if n == 1 then
              match pyIndex0 position_array with
              | .error er => (keep, some er)
              | .ok new_position =>
                if (jOfOpt e.attrs.position).eqb new_position then (keep, none)
                else
                  match get_relative_position_on e (some new_position) with
                  | .error er => ((some new_position, e.attrs.relative_position), some er)
                  | .ok none => ((some new_position, e.attrs.relative_position), none)
                  | .ok (some rp) => ((some new_position, some rp), none)
            else (keep, none)

/-- The position-decoding stage of `status_updated` (lines 356-374): runs
only when a position datapoint is configured and its key is present in the
snapshot; exceptions of the classes in the `except` tuple are swallowed,
all others propagate.  Earlier stages of `status_updated` never touch the
`position` and `relative_position` slots, so this stage reads them from
the incoming entity. -/
def positionUpdate (decode : String → Except PyErr JVal) (e : Entity)
    (status : Snapshot) : (Option JVal × Option (ℚ × ℚ)) × Option PyErr :=
  match e.config.position_base64_dp with
  | none => ((e.attrs.position, e.attrs.relative_position), none)
  | some pdp =>
    if snapHasKey status pdp then
      let pos := dps_conf e.config.position_base64_dp status
      let r := positionTryCore decode e pos
      match r.2 with
      | some er => if er.caught then (r.1, none) else (r.1, some er)
      | none => (r.1, none)
    else ((e.attrs.position, e.attrs.relative_position), none)

/-- `LocaltuyaVacuum.status_updated` (lines 310-374): resolve the state
from the string form of the primary datapoint, reset the path when leaving
the docked state (decided before the fault override), refresh each derived
attribute whose gating option is configured, force the error state on a
non-zero fault value, and run the position decode.  Returns the mutated
entity together with the uncaught exception, if one escaped the position
decode. -/
def status_updated (decode : String → Except PyErr JVal) (e : Entity)
    (status : Snapshot) : Entity × Option PyErr :=
  let state_value := pyStr (dps status e.dp_id)
  let previous_state := e.state
  let st := resolveState e state_value
  let path' :=
    if previous_state = some VacState.docked ∧ st ≠ VacState.docked then
      some ([] : List (ℚ × ℚ))
    else e.attrs.path
  let battery' :=
    if has_config e.config.battery_dp then dps_conf e.config.battery_dp status
    else e.battery_level
  let cm' :=
    if has_config e.config.modes then dps_conf e.config.mode_dp status
    else some (DPValue.s "")
  let modeAttr' :=
    if has_config e.config.modes then some (dps_conf e.config.mode_dp status)
    else e.attrs.cleaning_mode
  let fan' :=
    if has_config e.config.fan_speeds then dps_conf e.config.fan_speed_dp status
    else some (DPValue.s "")
  let ct' :=
    if has_config e.config.clean_time_dp then some (dps_conf e.config.clean_time_dp status)
    else e.attrs.clean_time
  let ca' :=
    if has_config e.config.clean_area_dp then some (dps_conf e.config.clean_area_dp status)
    else e.attrs.clean_area
  let cr' :=
    if has_config e.config.clean_record_dp then some (dps_conf e.config.clean_record_dp status)
    else e.attrs.clean_record
  let faultAttr' :=
    if has_config e.config.fault_dp then some (dps_conf e.config.fault_dp status)
    else e.attrs.fault
  let st' :=
    if has_config e.config.fault_dp ∧ ¬ pyIsZero (dps_conf e.config.fault_dp status) then
      VacState.error
    else st
  let pu := positionUpdate decode e status
  ({ e with
      state := some st'
      battery_level := battery'
      cleaning_mode := cm'
      fan_speed := fan'
      attrs :=
        { e.attrs with
            path := path'
            cleaning_mode := modeAttr'
            clean_time := ct'
            clean_area := ca'
            clean_record := cr'
            fault := faultAttr'
            position := pu.1.1
            relative_position := pu.1.2 } },
   pu.2)

/-- A value written to a device datapoint: either a raw datapoint value or
a structured command envelope.  The source serializes an envelope with
`base64.b64encode(json.dumps(...))` before the write; the encoding is an
injective external codec, so the write is modelled as carrying the JSON
tree itself. -/
inductive WriteValue where
  | dpv (v : DPValue)
  | encodedJson (j : JVal)

/-- One outbound datapoint write `set_dp(value, dp)`. -/
structure Write where
  value : WriteValue
  dp : DPId

/-- `LocaltuyaVacuum.get_command_params_clean` (lines 226-232): the
clean-by-area command envelope, with the timestamp passed in for
`int(time.time() * 1000)`. -/
def get_command_params_clean (vertices : JVal) (map_id ts : ℤ) : JVal :=
  .jobj
    [("dInfo", .jobj [("ts", .jnum ts), ("userId", .jstr "0")]),
     ("data", .jobj
       [("cmds", .jarr
         [.jobj
           [("data", .jobj
             [("cleanId", .jarr [.jnum (-3)]),
              ("extraAreas", .jarr
                [.jobj
                  [("active", .jstr "depth"), ("id", .jnum 100),
                   ("mode", .jstr "point"), ("name", .jstr "aa"),
                   ("tag", .jstr "room"), ("vertexs", vertices)]]),
              ("mapId", .jnum map_id), ("segmentId", .jarr [])]),
            ("infoType", .jnum 21023)],
          .jobj
           [("data", .jobj [("mode", .jstr "reAppointClean")]),
            ("infoType", .jnum 21005)]]),
        ("mainCmds", .jarr [.jnum 21005])]),
     ("infoType", .jnum 30000), ("message", .jstr "ok")]

/-- The clean-by-room command envelope built inline in the `clean_room`
branch (lines 245-248): no extra areas, the room id as the segment. -/
def clean_room_params (room_id map_id ts : ℤ) : JVal :=
  .jobj
    [("dInfo", .jobj [("ts", .jnum ts), ("userId", .jstr "0")]),
     ("data", .jobj
       [("cmds", .jarr
         [.jobj
           [("data", .jobj
             [("cleanId", .jarr [.jnum (-3)]),
              ("extraAreas", .jarr []),
              ("mapId", .jnum map_id),
              ("segmentId", .jarr [.jnum room_id])]),
            ("infoType", .jnum 21023)],
          .jobj
           [("data", .jobj [("mode", .jstr "reAppointClean")]),
            ("infoType", .jnum 21005)]]),
        ("mainCmds", .jarr [.jnum 21005])]),
     ("infoType", .jnum 30000), ("message", .jstr "ok")]

/-- The `params` dict of `async_send_command`, one optional slot per key
the dispatcher reads. -/
structure Params where
  mode : Option DPValue := none
  room : Option ℤ := none
  map_id : Option ℤ := none
  x : Option ℚ := none
  y : Option ℚ := none
  size : Option ℚ := none
  vertices : Option JVal := none
  relative_vertices : Option (List (ℚ × ℚ)) := none

/-- The square of side `size` centred on the absolute point `(x, y)` built
by the `clean_spot` branch (lines 260-261). -/
def squareVertices (x y : ℤ) (size : ℚ) : JVal :=
  .jarr
    [.jarr [.jnum (x - size / 2), .jnum (y - size / 2)],
     .jarr [.jnum (x - size / 2), .jnum (y + size / 2)],
     .jarr [.jnum (x + size / 2), .jnum (y + size / 2)],
     .jarr [.jnum (x + size / 2), .jnum (y - size / 2)]]

/-- Conversion of a list of relative vertices to absolute ones in the
`clean_area` branch (lines 268-272); an exception from
`calculate_absolute_position` propagates. -/
def absoluteVertices (e : Entity) : List (ℚ × ℚ) → Except PyErr (List (ℤ × ℤ))
  | [] => .ok []
  | v :: rest =>
    match calculate_absolute_position e v.1 v.2 with
    | .error er => .error er
    | .ok a =>
      match absoluteVertices e rest with
      | .error er => .error er
      | .ok rs => .ok (a :: rs)

/-- A list of integer vertex pairs as the JSON array the envelope carries. -/
def jVerticesOfInt (vs : List (ℤ × ℤ)) : JVal :=
  .jarr (vs.map (fun v => .jarr [.jnum v.1, .jnum v.2]))

/-- `LocaltuyaVacuum.async_send_command` (lines 234-277): `set_mode` with a
`mode` parameter writes it to the mode datapoint (`KeyError` when that
binding is absent from the config dict); `clean_room`, `clean_spot` and
`clean_area` build, encode and write an envelope to datapoint 127 with the
documented parameter defaults; any other command, and `set_mode` without
`mode`, falls through the `elif` chain and performs no write.  `now` stands
for `int(time.time() * 1000)`. -/
def async_send_command (e : Entity) (now : ℤ) (command : String)
    (params : Option Params) : Except PyErr (List Write) :=
  let p := params.getD {}
  if command == "set_mode" && (p.mode).isSome then
    match e.config.mode_dp with
    | some dp => .ok [⟨.dpv (p.mode.getD (.s "")), dp⟩]
    | none => .error .keyError
  else if command == "clean_room" then
    let room_id := p.room.getD 4
    let map_id := p.map_id.getD 1695662532
    .ok [⟨.encodedJson (clean_room_params room_id map_id now), 127⟩]
  else if command == "clean_spot" then
    let x := p.x.getD (1/2)
    let y := p.y.getD (1/2)
    let size := p.size.getD 300
    match calculate_absolute_position e x y with
    | .error er => .error er
    | .ok a =>
      let map_id := p.map_id.getD 1695662532
      .ok [⟨.encodedJson (get_command_params_clean (squareVertices a.1 a.2 size) map_id now), 127⟩]
  else if command == "clean_area" then
    match p.vertices with
    | some vs =>
      let map_id := p.map_id.getD 1695662532
      .ok [⟨.encodedJson (get_command_params_clean vs map_id now), 127⟩]
    | none =>
      let relative_vertices := p.relative_vertices.getD []
      match absoluteVertices e relative_vertices with
      | .error er => .error er
      | .ok vs =>
        let map_id := p.map_id.getD 1695662532
        .ok [⟨.encodedJson (get_command_params_clean (jVerticesOfInt vs) map_id now), 127⟩]
  else .ok []

/-- An interaction with the entity: a status update or a dispatched
command.  `async_send_command` never assigns to an entity field, so a
command leaves the entity state unchanged. -/
inductive Act where
  | upd (s : Snapshot)
  | cmd (now : ℤ) (command : String) (params : Option Params)

/-- Apply one interaction to the entity state. -/
def run_act (decode : String → Except PyErr JVal) (e : Entity) : Act → Entity
  | .upd s => (status_updated decode e s).1
  | .cmd _ _ _ => e

/-- Apply a sequence of interactions to the entity state. -/
def run_acts (decode : String → Except PyErr JVal) (e : Entity)
    (acts : List Act) : Entity :=
  acts.foldl (run_act decode) e

/-- A decode function for theorems that never reach the position pipeline,
or reach it with undecodable blobs. -/
def dec_fail : String → Except PyErr JVal := fun _ => .error .binasciiError

/-- The external base64-and-JSON codec evaluated at the blob "WzFd": that
string is the base64 encoding of the text of a one-element JSON array
holding the number 1; every other input is treated as undecodable. -/
def dec5 : String → Except PyErr JVal := fun v =>
  if v == "WzFd" then .ok (.jarr [.jnum 1]) else .error .binasciiError

/-- The executable floor of Batteries agrees with the floor of the
ordered-field structure. -/
theorem ratFloor_eq_floor (q : ℚ) : q.floor = ⌊q⌋ := by
  rw [Rat.floor_def', Rat.floor_def]

/-- Half-to-even rounding moves a rational by at most one half. -/
theorem pyRound_close (q : ℚ) : |(pyRound q : ℚ) - q| ≤ 1/2 := by
  have h0 : ((q.floor : ℤ) : ℚ) ≤ q := by
    rw [ratFloor_eq_floor]; exact Int.floor_le q
  have h1 : q < (q.floor : ℚ) + 1 := by
    rw [ratFloor_eq_floor]; exact Int.lt_floor_add_one q
  rw [abs_le]
  simp only [pyRound]
  split_ifs with ha hb hc
  · constructor <;> linarith
  · constructor <;> (push_cast; linarith)
  · constructor <;> linarith
  · constructor <;> (push_cast; linarith)

/-- Each of the four axis rotations (and the identity fallback) is an
involution. -/
theorem rotate_rotate (e : Entity) (px py : ℚ) :
    rotate_coordinates e (rotate_coordinates e px py).1
      (rotate_coordinates e px py).2 = (px, py) := by
  unfold rotate_coordinates
  split_ifs <;> simp

/-- C1: for every status snapshot whose decode is not overridden by a
configured non-zero fault, the new vacuum state is resolved from the
string form of the primary status datapoint by first-match order: idle
list, then docked list, then the returning value, then the paused value,
else cleaning. -/
theorem status_resolution_first_match (decode : String → Except PyErr JVal)
    (e : Entity) (s : Snapshot)
    (hf : e.config.fault_dp = none ∨ pyIsZero (dps_conf e.config.fault_dp s) = true) :
    (status_updated decode e s).1.state =
      some (if pyStr (dps s e.dp_id) ∈ e.idle_status_list then VacState.idle
            else if pyStr (dps s e.dp_id) ∈ e.docked_status_list then VacState.docked
            else if pyStr (dps s e.dp_id) = e.config.returning_status_value then VacState.returning
            else if pyStr (dps s e.dp_id) = e.config.paused_state then VacState.paused
            else VacState.cleaning) := by
  rcases hf with h | h
  · simp [status_updated, h, has_config, resolveState]
  · simp [status_updated, h, has_config, resolveState]

/-- C1 witness: with the default configuration, a snapshot whose primary
status is "standby" resolves to the idle state. -/
theorem status_resolution_first_match_witness :
    (status_updated dec_fail (vacuum_init {} 1) [(1, DPValue.s "standby")]).1.state =
      some VacState.idle := by
  have h := status_resolution_first_match dec_fail (vacuum_init {} 1)
    [(1, DPValue.s "standby")] (Or.inl rfl)
  rw [h]
  decide

/-- C2: whenever a fault datapoint is configured and its decoded value is
not Python-zero, the state after the decode is the error state, whatever
the first-match resolution produced. -/
theorem fault_override_forces_error (decode : String → Except PyErr JVal)
    (e : Entity) (s : Snapshot) (dp : DPId)
    (hf : e.config.fault_dp = some dp)
    (hnz : pyIsZero (dps s dp) = false) :
    (status_updated decode e s).1.state = some VacState.error := by
  simp [status_updated, hf, has_config, dps_conf, hnz]

/-- C2 witness: fault datapoint 11 holding the value 1 forces the error
state even though the primary status resolves to docked. -/
theorem fault_override_forces_error_witness :
    (status_updated dec_fail (vacuum_init { fault_dp := some 11 } 1)
      [(1, DPValue.s "charging"), (11, DPValue.i 1)]).1.state = some VacState.error :=
  fault_override_forces_error dec_fail (vacuum_init { fault_dp := some 11 } 1)
    [(1, DPValue.s "charging"), (11, DPValue.i 1)] 11 rfl (by decide)

/-- C3: for every rotation mode in the set 0-3, every non-zero scale,
every origin and every stored device-native pair, converting to relative
coordinates and back to absolute coordinates returns the original pair
rounded half-to-even, which is within one half of the original pair. -/
theorem geometry_roundtrip (e : Entity) (px py : ℚ)
    (hs : e.position_relative_scale ≠ 0)
    (_hr : e.position_axis_rotation ∈ ([0, 1, 2, 3] : List ℤ))
    (hp : e.attrs.position = some (.jarr [.jnum px, .jnum py])) :
    ∃ rx ry,
      get_relative_position e = .ok (some (rx, ry)) ∧
      calculate_absolute_position e rx ry = .ok (pyRound px, pyRound py) ∧
      |(pyRound px : ℚ) - px| ≤ 1/2 ∧ |(pyRound py : ℚ) - py| ≤ 1/2 := by
  refine ⟨(rotate_coordinates e px py).1 * e.position_relative_scale
            + e.position_relative_origin.1,
          (rotate_coordinates e px py).2 * e.position_relative_scale
            + e.position_relative_origin.2,
          ?_, ?_, pyRound_close px, pyRound_close py⟩
  · simp [get_relative_position, get_relative_position_on, hp, jOfOpt, jUnpack2]
  · have h1 : ((rotate_coordinates e px py).1 * e.position_relative_scale
        + e.position_relative_origin.1 - e.position_relative_origin.1)
        / e.position_relative_scale = (rotate_coordinates e px py).1 := by
      field_simp
    have h2 : ((rotate_coordinates e px py).2 * e.position_relative_scale
        + e.position_relative_origin.2 - e.position_relative_origin.2)
        / e.position_relative_scale = (rotate_coordinates e px py).2 := by
      field_simp
    simp [calculate_absolute_position, hs, h1, h2, rotate_rotate]

/-- A concrete entity for the geometry round-trip: scale 2, origin
(10, 20), rotation 0, holding the device-native position (7, 5/2). -/
def e3 : Entity :=
  let base := vacuum_init
    { position_relative_scale := some 2
      position_relative_origin := some (10, 20)
      position_axis_rotation := some 0 } 1
  { base with attrs := { base.attrs with position := some (.jarr [.jnum 7, .jnum (5/2)]) } }

/-- C3 witness: the round trip at scale 2, origin (10, 20), rotation 0 on
the pair (7, 5/2). -/
theorem geometry_roundtrip_witness :
    ∃ rx ry,
      get_relative_position e3 = .ok (some (rx, ry)) ∧
      calculate_absolute_position e3 rx ry = .ok (pyRound 7, pyRound (5/2)) ∧
      |(pyRound 7 : ℚ) - 7| ≤ 1/2 ∧ |(pyRound (5/2) : ℚ) - (5/2)| ≤ 1/2 :=
  geometry_roundtrip e3 7 (5/2) (by decide) (by decide) rfl

/-- C4 (amended): the path history is cleared exactly when the previous
state was docked and the first-match-resolved state, computed before the
fault override, is not docked; a decode whose resolved state is docked is
never a clearing decode, even when the fault override then forces the
error state. -/
theorem path_reset_pre_override (decode : String → Except PyErr JVal)
    (e : Entity) (s : Snapshot) :
    (status_updated decode e s).1.attrs.path =
      (if e.state = some VacState.docked ∧
          resolveState e (pyStr (dps s e.dp_id)) ≠ VacState.docked
       then some [] else e.attrs.path) := by
  simp [status_updated]

/-- An entity sitting in the docked state with a fault datapoint
configured and a hypothetical non-empty path, fed a snapshot whose primary
status is in the docked list while the fault datapoint is non-zero. -/
def e4 : Entity :=
  let base := vacuum_init { fault_dp := some 11 } 1
  { base with state := some .docked, attrs := { base.attrs with path := some [(1, 2)] } }

/-- The snapshot driving `e4`: docked status value, non-zero fault. -/
def s4 : Snapshot := [(1, DPValue.s "charging"), (11, DPValue.i 1)]

/-- C4 counterexample: decoding `s4` from `e4` moves the state from docked
to error (so the new state, fault override included, is not docked), yet
the path attribute is left untouched rather than cleared, because the
reset decision at lines 326-328 precedes the fault override of lines
351-354 and sees the resolved state docked. -/
theorem path_reset_claim_counterexample :
    e4.state = some VacState.docked ∧
    (status_updated dec_fail e4 s4).1.state = some VacState.error ∧
    (status_updated dec_fail e4 s4).1.state ≠ some VacState.docked ∧
    (status_updated dec_fail e4 s4).1.attrs.path = some [(1, 2)] ∧
    (status_updated dec_fail e4 s4).1.attrs.path ≠ some [] := by
  refine ⟨rfl, ?_, ?_, ?_, ?_⟩ <;> decide

/-- The entity of the malformed-position scenario: only a position
datapoint (id 110) is configured beyond the defaults. -/
def e5 : Entity := vacuum_init { position_base64_dp := some 110 } 1

/-- The snapshot of the malformed-position scenario: the position
datapoint carries the blob "WzFd", whose base64-decode is the JSON text of
the one-element array holding 1 (so the decoded value is a list, not a
dict). -/
def s5 : Snapshot := [(110, DPValue.s "WzFd")]

/-- C5 (code bug): a position blob that decodes to a JSON value that is
not an object makes the `.get("data", ...)` call raise `AttributeError`,
which is not in the `except` tuple of line 372 and escapes
`status_updated` to the caller; the prior position is unchanged and the
attributes updated before the position stage (here the state) were still
refreshed, but the decode does raise. -/
theorem position_decode_attributeerror_bug :
    (status_updated dec5 e5 s5).2 = some PyErr.attributeError ∧
    (status_updated dec5 e5 s5).1.attrs.position = none ∧
    (status_updated dec5 e5 s5).1.state = some VacState.cleaning :=
  ⟨rfl, rfl, rfl⟩

/-- A configuration whose position scale is the explicit value zero. -/
def cfg6 : VacuumConfig := { position_relative_scale := some 0 }

/-- C6 counterexample: constructing the entity from a zero-scale
configuration succeeds and stores the zero scale (no fail-fast
validation), and a later `clean_spot` command then raises
`ZeroDivisionError` from `calculate_absolute_position`. -/
theorem zero_scale_claim_counterexample :
    (vacuum_init cfg6 1).position_relative_scale = 0 ∧
    calculate_absolute_position (vacuum_init cfg6 1) (1/2) (1/2) =
      .error .zeroDivisionError ∧
    async_send_command (vacuum_init cfg6 1) 0 "clean_spot" none =
      .error .zeroDivisionError :=
  ⟨rfl, rfl, rfl⟩

/-- C6 (amended): construction never validates the scale; any
configuration carrying the scale zero yields an entity whose stored scale
is zero, and every later `clean_spot` dispatch fails at runtime with
`ZeroDivisionError` instead of having failed at construction. -/
theorem zero_scale_runtime_division (cfg : VacuumConfig) (dp : DPId) (now : ℤ)
    (h : cfg.position_relative_scale = some 0) :
    (vacuum_init cfg dp).position_relative_scale = 0 ∧
    async_send_command (vacuum_init cfg dp) now "clean_spot" none =
      .error .zeroDivisionError := by
  have hs : (vacuum_init cfg dp).position_relative_scale = 0 := by
    simp [vacuum_init, h]
  refine ⟨hs, ?_⟩
  simp [async_send_command, calculate_absolute_position, hs]

/-- C6 witness: the amended statement at the concrete zero-scale
configuration. -/
theorem zero_scale_runtime_division_witness :
    (vacuum_init cfg6 1).position_relative_scale = 0 ∧
    async_send_command (vacuum_init cfg6 1) 5 "clean_spot" none =
      .error .zeroDivisionError :=
  zero_scale_runtime_division cfg6 1 5 rfl

/-- A configuration with the cleaning-mode datapoint bound but the modes
list option absent. -/
def cfg7 : VacuumConfig := { modes := none, mode_dp := some 5 }

/-- The snapshot driving `cfg7`: the bound mode datapoint has a value. -/
def s7 : Snapshot := [(1, DPValue.s "standby"), (5, DPValue.s "smart")]

/-- C7 counterexample: with the mode datapoint binding configured (and
carrying the value "smart") but the modes list option absent, the
cleaning-mode attribute is not emitted, because lines 334-336 gate it on
the modes list option rather than on the datapoint binding. -/
theorem attrs_gating_counterexample :
    cfg7.mode_dp = some 5 ∧
    dps s7 5 = some (DPValue.s "smart") ∧
    (status_updated dec_fail (vacuum_init cfg7 1) s7).1.attrs.cleaning_mode = none :=
  ⟨rfl, rfl, rfl⟩

/-- C7 (amended): on a freshly constructed entity, the clean-time,
clean-area, clean-record and fault attributes and the battery level are
each populated exactly when their own datapoint binding is configured, but
the cleaning-mode attribute is emitted exactly when the modes list option
is configured and the fan speed is refreshed exactly when the fan-speeds
list option is configured, each reading its (possibly unbound) datapoint
binding. -/
theorem attrs_gating_by_config (decode : String → Except PyErr JVal)
    (cfg : VacuumConfig) (dp : DPId) (s : Snapshot) :
    ((status_updated decode (vacuum_init cfg dp) s).1.attrs.cleaning_mode.isSome
        ↔ cfg.modes.isSome) ∧
    ((status_updated decode (vacuum_init cfg dp) s).1.attrs.clean_time.isSome
        ↔ cfg.clean_time_dp.isSome) ∧
    ((status_updated decode (vacuum_init cfg dp) s).1.attrs.clean_area.isSome
        ↔ cfg.clean_area_dp.isSome) ∧
    ((status_updated decode (vacuum_init cfg dp) s).1.attrs.clean_record.isSome
        ↔ cfg.clean_record_dp.isSome) ∧
    ((status_updated decode (vacuum_init cfg dp) s).1.attrs.fault.isSome
        ↔ cfg.fault_dp.isSome) ∧
    ((status_updated decode (vacuum_init cfg dp) s).1.battery_level =
        if cfg.battery_dp.isSome then dps_conf cfg.battery_dp s else none) ∧
    ((status_updated decode (vacuum_init cfg dp) s).1.fan_speed =
        if cfg.fan_speeds.isSome then dps_conf cfg.fan_speed_dp s
        else some (DPValue.s "")) := by
  refine ⟨?_, ?_, ?_, ?_, ?_, ?_, ?_⟩ <;>
    simp [status_updated, vacuum_init, has_config]

/-- C8: dispatching `set_mode` without a `mode` parameter, or any command
name other than the four supported ones, performs no datapoint write and
raises no error. -/
theorem dispatcher_silent_noop (e : Entity) (now : ℤ) (command : String)
    (params : Option Params)
    (h : (command = "set_mode" ∧ (params.getD {}).mode = none) ∨
         command ∉ (["set_mode", "clean_room", "clean_spot", "clean_area"] : List String)) :
    async_send_command e now command params = .ok [] := by
  rcases h with ⟨hc, hm⟩ | hn
  · subst hc
    simp [async_send_command, hm]
  · simp only [List.mem_cons, List.not_mem_nil, or_false, not_or] at hn
    obtain ⟨h1, h2, h3, h4⟩ := hn
    simp [async_send_command, h1, h2, h3, h4]

/-- C8 witness: an unrecognized command name is a silent no-op. -/
theorem dispatcher_silent_noop_witness :
    async_send_command (vacuum_init {} 1) 0 "dance" none = .ok [] :=
  dispatcher_silent_noop (vacuum_init {} 1) 0 "dance" none (Or.inr (by decide))

/-- The identity-like geometry configuration of the clean-area scenario:
scale 1, origin (0, 0), rotation 0. -/
def cfg9 : VacuumConfig :=
  { position_relative_scale := some 1
    position_relative_origin := some (0, 0)
    position_axis_rotation := some 0 }

/-- The entity of the clean-area scenario. -/
def e9 : Entity := vacuum_init cfg9 1

/-- The clean-area parameters of the scenario: relative vertices
(0.5, 0.5) and (0.6, 0.5). -/
def p9 : Params := { relative_vertices := some [(1/2, 1/2), (3/5, 1/2)] }

/-- The vertices the dispatcher actually produces for `p9`. -/
def v9_actual : JVal := jVerticesOfInt [(0, 0), (1, 0)]

/-- The vertices the claim says the dispatcher produces for `p9`. -/
def v9_claimed : JVal := jVerticesOfInt [(1, -1), (1, -1)]

/-- Evaluation of the executable floor at one half. -/
theorem floor_half : (1/2 : ℚ).floor = 0 := by
  rw [ratFloor_eq_floor, Int.floor_eq_iff]
  norm_num

/-- Evaluation of the executable floor at minus one half. -/
theorem floor_neg_half : (-(1/2) : ℚ).floor = -1 := by
  rw [ratFloor_eq_floor, Int.floor_eq_iff]
  norm_num

/-- Evaluation of the executable floor at three fifths. -/
theorem floor_three_fifths : (3/5 : ℚ).floor = 0 := by
  rw [ratFloor_eq_floor, Int.floor_eq_iff]
  norm_num

/-- Half-to-even rounding of one half: down to the even 0. -/
theorem pyRound_half : pyRound (1/2 : ℚ) = 0 := by
  simp only [pyRound, floor_half]
  norm_num

/-- Half-to-even rounding of minus one half: up to the even 0. -/
theorem pyRound_neg_half : pyRound (-(1/2) : ℚ) = 0 := by
  simp only [pyRound, floor_neg_half]
  norm_num

/-- Rounding of three fifths: up to 1. -/
theorem pyRound_three_fifths : pyRound (3/5 : ℚ) = 1 := by
  simp only [pyRound, floor_three_fifths]
  norm_num

/-- Conversion of the centre point (0.5, 0.5) under the identity-like
configuration: both halves round to 0. -/
theorem calc_abs_e9_half :
    calculate_absolute_position e9 (1/2) (1/2) = .ok (0, 0) := by
  have h : calculate_absolute_position e9 (1/2) (1/2) =
      .ok (pyRound (((1:ℚ)/2 - 0) / 1), pyRound (-(((1:ℚ)/2 - 0) / 1))) := rfl
  have ha : ((1:ℚ)/2 - 0) / 1 = 1/2 := by norm_num
  rw [h, ha, pyRound_half, pyRound_neg_half]

/-- Conversion of the point (0.6, 0.5) under the identity-like
configuration. -/
theorem calc_abs_e9_sixtenths :
    calculate_absolute_position e9 (3/5) (1/2) = .ok (1, 0) := by
  have h : calculate_absolute_position e9 (3/5) (1/2) =
      .ok (pyRound (((3:ℚ)/5 - 0) / 1), pyRound (-(((1:ℚ)/2 - 0) / 1))) := rfl
  have ha : ((3:ℚ)/5 - 0) / 1 = 3/5 := by norm_num
  have hb : ((1:ℚ)/2 - 0) / 1 = 1/2 := by norm_num
  rw [h, ha, hb, pyRound_three_fifths, pyRound_neg_half]

/-- The absolute vertices produced for the relative vertices of `p9`. -/
theorem absolute_vertices_p9 :
    absoluteVertices e9 [(1/2, 1/2), (3/5, 1/2)] = .ok [(0, 0), (1, 0)] := by
  have h : absoluteVertices e9 [(1/2, 1/2), (3/5, 1/2)] =
      match calculate_absolute_position e9 (1/2) (1/2) with
      | .error er => .error er
      | .ok a =>
        match (match calculate_absolute_position e9 (3/5) (1/2) with
               | .error er => (.error er : Except PyErr (List (ℤ × ℤ)))
               | .ok b => .ok [b]) with
        | .error er => .error er
        | .ok rs => .ok (a :: rs) := rfl
  rw [h, calc_abs_e9_half, calc_abs_e9_sixtenths]

/-- The write the clean-area dispatch performs on `p9`. -/
theorem clean_area_p9_write :
    async_send_command e9 1700000000000 "clean_area" (some p9) =
      .ok [⟨.encodedJson (get_command_params_clean v9_actual 1695662532 1700000000000), 127⟩] := by
  have h : async_send_command e9 1700000000000 "clean_area" (some p9) =
      match absoluteVertices e9 [(1/2, 1/2), (3/5, 1/2)] with
      | .error er => .error er
      | .ok vs =>
        .ok [⟨.encodedJson (get_command_params_clean (jVerticesOfInt vs) 1695662532 1700000000000), 127⟩] := rfl
  rw [h, absolute_vertices_p9]
  rfl

/-- C9 counterexample: under scale 1, origin (0, 0), rotation 0, the
`clean_area` dispatch on relative vertices (0.5, 0.5) and (0.6, 0.5)
writes the envelope whose vertices are (0, 0) and (1, 0), which is not
the envelope with vertices (1, -1) and (1, -1) the claim names: Python's
round is half-to-even, so 0.5 and -0.5 both round to 0. -/
theorem clean_area_rounding_counterexample :
    async_send_command e9 1700000000000 "clean_area" (some p9) =
      .ok [⟨.encodedJson (get_command_params_clean v9_actual 1695662532 1700000000000), 127⟩] ∧
    get_command_params_clean v9_actual 1695662532 1700000000000 ≠
      get_command_params_clean v9_claimed 1695662532 1700000000000 := by
  constructor
  · exact clean_area_p9_write
  · intro hcontra
    simp [get_command_params_clean, v9_actual, v9_claimed, jVerticesOfInt] at hcontra

/-- C9 (amended): the coordinate (0.5, 0.5) converts to the absolute pair
(0, 0) and (0.6, 0.5) to (1, 0) under the half-to-even rounding of
Python's round, so the dispatch produces the envelope with vertices
(0, 0) and (1, 0). -/
theorem clean_area_half_even_rounding :
    pyRound (1/2) = 0 ∧ pyRound (-(1/2)) = 0 ∧ pyRound (3/5) = 1 ∧
    calculate_absolute_position e9 (1/2) (1/2) = .ok (0, 0) ∧
    calculate_absolute_position e9 (3/5) (1/2) = .ok (1, 0) ∧
    async_send_command e9 1700000000000 "clean_area" (some p9) =
      .ok [⟨.encodedJson (get_command_params_clean v9_actual 1695662532 1700000000000), 127⟩] :=
  ⟨pyRound_half, pyRound_neg_half, pyRound_three_fifths,
   calc_abs_e9_half, calc_abs_e9_sixtenths, clean_area_p9_write⟩

/-- One status update keeps an empty path empty: the only assignment to
the path attribute in `status_updated` writes the empty list, and the
append in the position stage is commented out in the source. -/
theorem status_updated_path_empty (decode : String → Except PyErr JVal)
    (e : Entity) (s : Snapshot) (h : e.attrs.path = some []) :
    (status_updated decode e s).1.attrs.path = some [] := by
  simp [status_updated, h]

/-- C10: the path attribute is invariantly the empty list: it starts empty
at construction and stays empty across every sequence of status updates
and dispatched commands. -/
theorem path_always_empty (decode : String → Except PyErr JVal)
    (cfg : VacuumConfig) (dp : DPId) (acts : List Act) :
    (run_acts decode (vacuum_init cfg dp) acts).attrs.path = some [] := by
  have key : ∀ (acts : List Act) (e : Entity), e.attrs.path = some [] →
      (run_acts decode e acts).attrs.path = some [] := by
    intro acts
    induction acts with
    | nil => intro e he; exact he
    | cons a rest ih =>
      intro e he
      cases a with
      | upd s => exact ih _ (status_updated_path_empty decode e s he)
      | cmd now c p => exact ih _ he
  exact key acts _ rfl
